import Mathlib

/-!
Verification development for the `bitcoin-voice-assistant` repository.

We give a shallow embedding of the concurrency/session/protocol-bridging
core of the repository: the A2A task data model and in-memory task store,
the two Specialist Task Handlers
(`specialist_agents/stock_info_agent/task_manager.py` and
`examples/blockchain_info_lookup_a2a/specialist_agents/blockchain_info_agent/task_manager.py`),
the two Delegation Clients (`host_agent/tools.py` and
`examples/stock_lookup_custom_a2a/host_agent/tools.py`), and the Live
Session Bridge (`app/live_server.py`).

Python dictionaries with JSON-compatible values are embedded as
association lists over a flat value type; awaited calls whose behaviour
lives outside this repository (the MCP worker subprocess, the ADK agent
run, the HTTP exchange of the A2A client) enter the model as explicit
outcome parameters, and the repository code that consumes those outcomes
is translated statement by statement.
-/

namespace BVA

/-- Flat JSON-compatible values, the payloads of `DataPart` dictionaries,
session state maps and worker result dictionaries in the Python source. -/
inductive JVal where
  | str (s : String)
  | int (n : Int)
  | bool (b : Bool)
  | null
deriving DecidableEq, Repr

/-- Python dict with JSON-compatible values, as an association list. -/
abbrev JDict := List (String × JVal)

/-- Python `str()` rendering of a `JVal`, used where the source
interpolates a dictionary value into an f-string. -/
def JVal.pyStr : JVal → String
  | .str s => s
  | .int n => toString n
  | .bool b => if b then "True" else "False"
  | .null => "None"

/-- Message/artifact parts of the A2A `common.types` model: `TextPart`
carries text, `DataPart` carries a structured dictionary. -/
inductive Part where
  | text (text : String)
  | data (data : JDict)
deriving DecidableEq, Repr

/-- A2A `Artifact`: a named ordered list of typed parts. -/
structure Artifact where
  name : String
  parts : List Part
deriving DecidableEq, Repr

/-- A2A `TaskState` enumeration (`common.types.TaskState`). -/
inductive TaskState where
  | submitted
  | working
  | completed
  | failed
deriving DecidableEq, Repr

/-- Rendering of a `TaskState` used when the source interpolates the
state into an error message (the enumeration value string). -/
def TaskState.pyStr : TaskState → String
  | .submitted => "submitted"
  | .working => "working"
  | .completed => "completed"
  | .failed => "failed"

/-- A2A `TaskStatus`: a state plus an optional human message. -/
structure TaskStatus where
  state : TaskState
  message : Option String := none
deriving DecidableEq, Repr

/-- A2A `Task`: id, correlating session id, status and optional artifact
list (the pydantic field is `Optional[List[Artifact]]`). -/
structure Task where
  id : String
  sessionId : String
  status : TaskStatus
  artifacts : Option (List Artifact) := none
deriving DecidableEq, Repr

/-- A2A `Message`: role plus ordered parts. -/
structure Message where
  role : String
  parts : List Part
deriving DecidableEq, Repr

/-- A2A `TaskSendParams`: caller-generated task id, correlating session
id, and the input message. -/
structure TaskSendParams where
  id : String
  sessionId : String
  message : Message
deriving DecidableEq, Repr

/-- JSON-RPC request wrapper for `tasks/send` (`SendTaskRequest`). -/
structure SendTaskRequest where
  id : String
  params : TaskSendParams
deriving DecidableEq, Repr

/-- JSON-RPC error object (`JSONRPCError`). -/
structure RpcError where
  code : Int
  message : String
deriving DecidableEq, Repr

/-- JSON-RPC response wrapper for `tasks/send` (`SendTaskResponse`):
the source always sets exactly one of `result` and `error`. -/
structure SendTaskResponse where
  id : String
  result : Option Task := none
  error : Option RpcError := none
deriving DecidableEq, Repr

/-- The in-memory map of the Task Lifecycle Store, keyed by task id. -/
abbrev TaskStore := List (String × Task)

/-- Modelled from the spec: `InMemoryTaskManager.upsert_task` of the
`common.server.task_manager` module, which is not included in the
repository sources. Spec 4.2: creates a Task if absent with status
`SUBMITTED`, otherwise returns the existing Task unchanged. -/
def upsert_task (store : TaskStore) (p : TaskSendParams) : Task × TaskStore :=
  match store.lookup p.id with
  | some t => (t, store)
  | none =>
      let t : Task :=
        { id := p.id, sessionId := p.sessionId,
          status := { state := TaskState.submitted, message := none },
          artifacts := none }
      (t, (p.id, t) :: store)

/-- Modelled from the spec: `InMemoryTaskManager.update_store` of the
`common.server.task_manager` module, which is not included in the
repository sources. Spec 4.2: overwrites status and artifacts for an
existing task; unknown ids are untouched here (the spec makes that case
an error, and every call below follows an upsert of the same id). -/
def update_store (store : TaskStore) (taskId : String) (status : TaskStatus)
    (artifacts : Option (List Artifact)) : TaskStore :=
  store.map fun e =>
    if e.1 = taskId then (e.1, { e.2 with status := status, artifacts := artifacts }) else e

/-- Python `str.strip()` with no argument (standard library, external to
the repository): drop whitespace from both ends. -/
def pyStrip (s : String) : String :=
  String.mk (((s.data.dropWhile Char.isWhitespace).reverse.dropWhile Char.isWhitespace).reverse)

/-- First part that is a `TextPart` with truthy (non-empty) `text`, with
Python `str.strip()` applied; mirrors the extraction loop shared by both
task managers (`task_manager.py`, stock lines 50-57, blockchain lines
46-50): the loop breaks at the first non-empty text part. -/
def firstNonEmptyText : List Part → Option String
  | [] => none
  | Part.text t :: rest => if t = "" then firstNonEmptyText rest else some (pyStrip t)
  | Part.data _ :: rest => firstNonEmptyText rest

/-- Result of the extraction loop followed by the `if not symbol` /
`if not user_query` truthiness test: `none` means the missing-input
branch is taken (no text part, or the first non-empty text part strips
to the empty string). -/
def extractUserText (parts : List Part) : Option String :=
  match firstNonEmptyText parts with
  | some s => if s = "" then none else some s
  | none => none

/-- Outcome of `await call_mcp_get_stock_price(...)` as observed by the
stock task manager: the worker call returns a dictionary, or raises. -/
inductive McpOutcome where
  | ok (d : JDict)
  | raise (msg : String)
deriving DecidableEq, Repr

/-- Result of one handler invocation: the JSON-RPC response returned to
the caller, the task store after the call, and the ordered list of task
statuses written to the store for the request task id (the `SUBMITTED`
entry of a fresh upsert, then each `update_store` call). -/
structure HandlerRun where
  response : SendTaskResponse
  store : TaskStore
  writes : List TaskState
deriving DecidableEq, Repr

namespace StockInfoTaskManager

/-- Shallow embedding of `StockInfoTaskManager.on_send_task`
(`specialist_agents/stock_info_agent/task_manager.py`, lines 31-114).
The awaited MCP worker call enters as the `mcp` outcome parameter; the
`except Exception` block around the worker call and result processing is
the `McpOutcome.raise` branch. -/
def on_send_task (store : TaskStore) (request : SendTaskRequest)
    (mcp : McpOutcome) : HandlerRun :=
  let p := request.params
  let creationWrites : List TaskState :=
    if (store.lookup p.id).isNone then [TaskState.submitted] else []
  let (task0, store1) := upsert_task store p
  let statusW : TaskStatus := { task0.status with state := TaskState.working }
  let store2 := update_store store1 p.id statusW none
  match extractUserText p.message.parts with
  | none =>
      let statusF : TaskStatus := { state := TaskState.failed, message := none }
      let errArt : Artifact :=
        { name := "error_details",
          parts := [Part.data [("error", JVal.str "Error: Ticker symbol not provided in the request.")]] }
      let taskF : Task := { task0 with status := statusF, artifacts := some [errArt] }
      { response := { id := request.id, result := some taskF },
        store := update_store store2 p.id statusF (some [errArt]),
        writes := creationWrites ++ [TaskState.working, TaskState.failed] }
  | some _ =>
      match mcp with
      | McpOutcome.ok d =>
          if (d.lookup "error").isNone && (d.lookup "price").isSome then
            let statusC : TaskStatus := { state := TaskState.completed, message := none }
            let resArt : Artifact := { name := "stock_price_data", parts := [Part.data d] }
            let taskC : Task := { task0 with status := statusC, artifacts := some [resArt] }
            { response := { id := request.id, result := some taskC },
              store := update_store store2 p.id statusC (some [resArt]),
              writes := creationWrites ++ [TaskState.working, TaskState.completed] }
          else
            let statusF : TaskStatus := { state := TaskState.failed, message := none }
            let errVal := (d.lookup "error").getD (JVal.str "Unknown error from MCP tool/interaction.")
            let errArt : Artifact := { name := "error_details", parts := [Part.data [("error", errVal)]] }
            let taskF : Task := { task0 with status := statusF, artifacts := some [errArt] }
            { response := { id := request.id, result := some taskF },
              store := update_store store2 p.id statusF (some [errArt]),
              writes := creationWrites ++ [TaskState.working, TaskState.failed] }
      | McpOutcome.raise _ =>
          let statusF : TaskStatus := { state := TaskState.failed, message := none }
          let errArt : Artifact :=
            { name := "error_details",
              parts := [Part.data [("error", JVal.str "Internal server error processing task.")]] }
          { response :=
              { id := request.id,
                error := some { code := -32603,
                                message := "Internal processing error for task " ++ p.id } },
            store := update_store store2 p.id statusF (some [errArt]),
            writes := creationWrites ++ [TaskState.working, TaskState.failed] }

end StockInfoTaskManager

/-- Outcome of the ADK agent run performed by the blockchain task
manager (`create_agent_with_mcp_tools` plus the `run_async` event loop,
blockchain `task_manager.py` lines 60-114), as observed by the
surrounding code: the first captured tool response dictionary, a
non-dictionary tool response, an error while reading a tool response, no
tool response at all, or an exception during creation/run. -/
inductive AdkOutcome where
  | toolResult (d : JDict)
  | toolResultNonDict
  | toolResultReadError
  | noToolResult
  | raise (msg : String)
deriving DecidableEq, Repr

/-- Value of `adk_result_dict` after the `try/except/finally` block of
the blockchain task manager (initialised to the generic failure
dictionary at line 60 and overwritten according to the run outcome). -/
def adkResultDict : AdkOutcome → JDict
  | AdkOutcome.toolResult d => d
  | AdkOutcome.toolResultNonDict => [("error", JVal.str "Unexpected tool response format.")]
  | AdkOutcome.toolResultReadError => [("error", JVal.str "Internal error processing specialist response.")]
  | AdkOutcome.noToolResult => [("error", JVal.str "ADK agent execution failed.")]
  | AdkOutcome.raise m => [("error", JVal.str ("Failed to execute ADK agent: " ++ m))]

namespace BlockchainInfoTaskManager

/-- Shallow embedding of `BlockchainInfoTaskManager.on_send_task`
(`examples/blockchain_info_lookup_a2a/specialist_agents/blockchain_info_agent/task_manager.py`,
lines 30-130). The ADK agent run enters as the `adk` outcome parameter;
every exception of the run is caught at line 107, so this handler always
returns a task result. -/
def on_send_task (store : TaskStore) (request : SendTaskRequest)
    (adk : AdkOutcome) : HandlerRun :=
  let p := request.params
  let creationWrites : List TaskState :=
    if (store.lookup p.id).isNone then [TaskState.submitted] else []
  let (task0, store1) := upsert_task store p
  let statusW : TaskStatus := { task0.status with state := TaskState.working }
  let store2 := update_store store1 p.id statusW none
  match extractUserText p.message.parts with
  | none =>
      let statusF : TaskStatus := { task0.status with state := TaskState.failed }
      let errArt : Artifact :=
        { name := "error_details",
          parts := [Part.data [("error", JVal.str "No query provided.")]] }
      let taskF : Task := { task0 with status := statusF, artifacts := some [errArt] }
      { response := { id := request.id, result := some taskF },
        store := update_store store2 p.id statusF (some [errArt]),
        writes := creationWrites ++ [TaskState.working, TaskState.failed] }
  | some _ =>
      let d := adkResultDict adk
      if (d.lookup "error").isNone then
        let statusC : TaskStatus := { task0.status with state := TaskState.completed }
        let resArt : Artifact := { name := "blockchain_data", parts := [Part.data d] }
        let taskC : Task := { task0 with status := statusC, artifacts := some [resArt] }
        { response := { id := request.id, result := some taskC },
          store := update_store store2 p.id statusC (some [resArt]),
          writes := creationWrites ++ [TaskState.working, TaskState.completed] }
      else
        let statusF : TaskStatus := { task0.status with state := TaskState.failed }
        let errVal := (d.lookup "error").getD (JVal.str "Unknown error from ADK Agent.")
        let errArt : Artifact := { name := "error_details", parts := [Part.data [("error", errVal)]] }
        let taskF : Task := { task0 with status := statusF, artifacts := some [errArt] }
        { response := { id := request.id, result := some taskF },
          store := update_store store2 p.id statusF (some [errArt]),
          writes := creationWrites ++ [TaskState.working, TaskState.failed] }

end BlockchainInfoTaskManager

/-- A single apostrophe (the Python source quotes specialist names with
apostrophes inside f-strings). -/
def sq : String := String.singleton (Char.ofNat 39)

/-- Specialist name as quoted in the example client error messages. -/
def quoted (s : String) : String := sq ++ s ++ sq

/-- A2A JSON-RPC response to `tasks/send` as decoded by the client: an
error object or a task result (`common.types.SendTaskResponse` on the
wire). -/
structure A2AResponse where
  error : Option RpcError := none
  result : Option Task := none
deriving DecidableEq, Repr

/-- Outcome of `await a2a_client.send_task(...)` as observed by the
delegation clients: a decoded response, or one of the exception kinds
the source handles (`A2AClientHTTPError`, `A2AClientJSONError`,
`ConnectionRefusedError`, any other `Exception`). -/
inductive A2AExchange where
  | ok (resp : A2AResponse)
  | httpError (status : Int) (msg : String)
  | jsonError (msg : String)
  | connRefused (msg : String)
  | raise (msg : String)
deriving DecidableEq, Repr

/-- Python truthiness of the exchange being an exception. -/
def A2AExchange.isTransportFailure : A2AExchange → Bool
  | A2AExchange.ok _ => false
  | _ => true

/-- Uniform result dictionary returned by both delegation clients:
a `status` key plus the optional keys the source attaches. -/
structure ToolResult where
  status : String
  message : Option String := none
  data : Option JDict := none
  specialist_name : Option String := none
deriving DecidableEq, Repr

/-- Python truthiness of the optional `Task.artifacts` field. -/
def artifactsTruthy : Option (List Artifact) → Bool
  | some l => !l.isEmpty
  | none => false

/-- First `DataPart` of a part list (inner loop of both clients). -/
def firstDataPart : List Part → Option JDict
  | [] => none
  | Part.data d :: _ => some d
  | Part.text _ :: rest => firstDataPart rest

/-- First `DataPart` whose dictionary has an `error` key, returning that
value (inner loop of the `FAILED` branch of both clients). -/
def firstErrorVal : List Part → Option JVal
  | [] => none
  | Part.data d :: rest =>
      match d.lookup "error" with
      | some v => some v
      | none => firstErrorVal rest
  | Part.text _ :: rest => firstErrorVal rest

/-- Artifact scan of `call_specialist_stock_agent` (`host_agent/tools.py`
lines 85-91): only artifacts named `stock_price_data` with truthy parts
are searched for a `DataPart`. -/
def findStockData : List Artifact → Option JDict
  | [] => none
  | a :: rest =>
      if a.name = "stock_price_data" ∧ a.parts ≠ [] then
        match firstDataPart a.parts with
        | some d => some d
        | none => findStockData rest
      else findStockData rest

/-- Artifact scan of `delegate_task_to_specialist`
(`examples/stock_lookup_custom_a2a/host_agent/tools.py` lines 149-155):
the first `DataPart` of any artifact with truthy parts. -/
def findAnyData : List Artifact → Option JDict
  | [] => none
  | a :: rest =>
      if a.parts ≠ [] then
        match firstDataPart a.parts with
        | some d => some d
        | none => findAnyData rest
      else findAnyData rest

/-- Artifact scan of the `FAILED` branch shared by both clients: the
first artifact named `error_details` with truthy parts containing a
`DataPart` with an `error` key. -/
def findErrorDetails : List Artifact → Option JVal
  | [] => none
  | a :: rest =>
      if a.name = "error_details" ∧ a.parts ≠ [] then
        match firstErrorVal a.parts with
        | some v => some v
        | none => findErrorDetails rest
      else findErrorDetails rest

/-- Response mapping of `call_specialist_stock_agent`
(`host_agent/tools.py` lines 74-114), after a successful exchange. -/
def processStockResponse (resp : A2AResponse) : ToolResult :=
  match resp.error with
  | some e =>
      { status := "error",
        message := some ("A2A protocol error: " ++ e.message ++ " (Code: " ++ toString e.code ++ ")") }
  | none =>
      match resp.result with
      | some task =>
          let arts := task.artifacts.getD []
          if task.status.state = TaskState.completed ∧ artifactsTruthy task.artifacts then
            match findStockData arts with
            | some d => { status := "success", data := some d }
            | none =>
                { status := "error",
                  message := some "Received unexpected completion format from specialist agent." }
          else if task.status.state = TaskState.failed ∧ artifactsTruthy task.artifacts then
            match findErrorDetails arts with
            | some v =>
                { status := "error", message := some ("Specialist Error: " ++ v.pyStr) }
            | none =>
                { status := "error",
                  message := some "Specialist agent reported failure with unclear details." }
          else
            { status := "error",
              message := some ("Specialist agent ended in state: " ++ task.status.state.pyStr) }
      | none => { status := "error", message := some "Empty response from specialist agent." }

/-- Shallow embedding of `call_specialist_stock_agent`
(`host_agent/tools.py` lines 32-127): the awaited HTTP exchange enters
as the outcome parameter, and the `except` chain of lines 116-127 is the
match on the exceptional constructors, so the function is total — no
exception reaches the caller. -/
def call_specialist_stock_agent (x : A2AExchange) : ToolResult :=
  match x with
  | A2AExchange.ok resp => processStockResponse resp
  | A2AExchange.httpError code _ =>
      { status := "error",
        message := some ("Network error communicating with specialist: " ++ toString code) }
  | A2AExchange.jsonError _ =>
      { status := "error", message := some "Invalid response format from specialist." }
  | A2AExchange.connRefused _ =>
      { status := "error", message := some "Could not connect to specialist agent." }
  | A2AExchange.raise m =>
      { status := "error", message := some ("An unexpected error occurred: " ++ m) }

/-- Specialist descriptor fields used by delegation (`AgentCard`). -/
structure AgentCard where
  name : String
  url : String
deriving DecidableEq, Repr

/-- The `DISCOVERED_SPECIALIST_AGENTS` cache, keyed by card name. -/
abbrev Registry := List (String × AgentCard)

/-- Result of `json.loads(query_payload)` as observed by
`delegate_task_to_specialist` lines 109-117: a dictionary, some other
JSON value, or a `JSONDecodeError`. -/
inductive PayloadParse where
  | dict (d : JDict)
  | nonDict
  | decodeError
deriving DecidableEq, Repr

/-- Message parts built by `delegate_task_to_specialist` lines 109-117:
a JSON object becomes a single `DataPart`, anything else a single
`TextPart` holding the raw payload string. -/
def buildA2AParts (parse : PayloadParse) (raw : String) : List Part :=
  match parse with
  | PayloadParse.dict d => [Part.data d]
  | PayloadParse.nonDict => [Part.text raw]
  | PayloadParse.decodeError => [Part.text raw]

/-- Response mapping of `delegate_task_to_specialist`
(`examples/stock_lookup_custom_a2a/host_agent/tools.py` lines 136-174),
after a successful exchange. -/
def processDelegateResponse (name : String) (resp : A2AResponse) : ToolResult :=
  match resp.error with
  | some e =>
      { status := "error",
        message := some ("A2A protocol error from " ++ quoted name ++ ": " ++ e.message ++
          " (Code: " ++ toString e.code ++ ")"),
        specialist_name := some name }
  | none =>
      match resp.result with
      | some task =>
          let arts := task.artifacts.getD []
          if task.status.state = TaskState.completed ∧ artifactsTruthy task.artifacts then
            match findAnyData arts with
            | some d => { status := "success", data := some d, specialist_name := some name }
            | none =>
                { status := "error",
                  message := some "Received no parsable data artifact from specialist.",
                  specialist_name := some name }
          else if task.status.state = TaskState.failed ∧ artifactsTruthy task.artifacts then
            match findErrorDetails arts with
            | some v =>
                { status := "error", message := some ("Specialist Error: " ++ v.pyStr),
                  specialist_name := some name }
            | none =>
                { status := "error",
                  message := some "Specialist reported failure with unclear details.",
                  specialist_name := some name }
          else
            { status := "error",
              message := some ("Specialist agent " ++ quoted name ++ " ended in state: " ++
                task.status.state.pyStr),
              specialist_name := some name }
      | none =>
          { status := "error", message := some "Empty response from specialist agent.",
            specialist_name := some name }

/-- Result of one `delegate_task_to_specialist` call, instrumented with
whether the A2A network exchange was reached and, when it was, the
message parts sent with the task. -/
structure DelegateRun where
  result : ToolResult
  networkCalled : Bool
  sentParts : Option (List Part)
deriving DecidableEq, Repr

/-- Shallow embedding of `delegate_task_to_specialist`
(`examples/stock_lookup_custom_a2a/host_agent/tools.py` lines 77-181).
The registry is the `DISCOVERED_SPECIALIST_AGENTS` cache, the payload
parse models `json.loads`, and the awaited exchange enters as the
outcome parameter. The `except` chain of lines 176-181 handles
`A2AClientHTTPError` specially and every other exception generically,
so the function is total — no exception reaches the caller. -/
def delegate_task_to_specialist (registry : Registry) (name : String)
    (parse : PayloadParse) (raw : String) (x : A2AExchange) : DelegateRun :=
  match registry.lookup name with
  | none =>
      { result :=
          { status := "error",
            message := some ("Specialist agent " ++ quoted name ++
              " not found or not discovered.") },
        networkCalled := false, sentParts := none }
  | some _ =>
      let parts := buildA2AParts parse raw
      let res :=
        match x with
        | A2AExchange.ok resp => processDelegateResponse name resp
        | A2AExchange.httpError code _ =>
            { status := "error",
              message := some ("Network error with " ++ quoted name ++ ": " ++ toString code),
              specialist_name := some name }
        | A2AExchange.jsonError m =>
            { status := "error",
              message := some ("An unexpected error occurred with " ++ quoted name ++ ": " ++ m),
              specialist_name := some name }
        | A2AExchange.connRefused m =>
            { status := "error",
              message := some ("An unexpected error occurred with " ++ quoted name ++ ": " ++ m),
              specialist_name := some name }
        | A2AExchange.raise m =>
            { status := "error",
              message := some ("An unexpected error occurred with " ++ quoted name ++ ": " ++ m),
              specialist_name := some name }
      { result := res, networkCalled := true, sentParts := some parts }

/-- Key of a session in the ADK in-memory session service: the endpoint
always passes `app_name`, `user_id` and `session_id` together. -/
structure SessionKey where
  app : String
  user : String
  sid : String
deriving DecidableEq, Repr

/-- Live session handle: its key plus the mutable state map. -/
structure LiveSession where
  key : SessionKey
  state : JDict
deriving DecidableEq, Repr

/-- The in-memory session store of the ADK `InMemorySessionService`. -/
abbrev SessionService := List (SessionKey × LiveSession)

/-- Replace or append one key of a state map. -/
def dictSet : JDict → String → JVal → JDict
  | [], k, v => [(k, v)]
  | (k0, v0) :: rest, k, v =>
      if k0 = k then (k, v) :: rest else (k0, v0) :: dictSet rest k v

/-- Merge a state delta into a state map, key by key (spec 3, glossary:
a state delta is a partial update merged into the session state map). -/
def stateMerge (st delta : JDict) : JDict :=
  delta.foldl (fun acc e => dictSet acc e.1 e.2) st

/-- Actions payload of an upstream event; only the state delta is
relevant to the claims below. -/
structure EventActions where
  state_delta : JDict := []
deriving DecidableEq, Repr

/-- Event applied to a session, as constructed by the `toggle_mock`
branch of the bridge: author tag, invocation id, actions. -/
structure LiveEvent where
  author : String
  invocation_id : String
  actions : EventActions := {}
deriving DecidableEq, Repr

/-- Modelled from the spec: `InMemorySessionService.get_session` of the
external ADK runtime (spec 4.1 `OpenSession`); looks the session up by
its key. -/
def get_session (svc : SessionService) (k : SessionKey) : Option LiveSession :=
  svc.lookup k

/-- Modelled from the spec: `InMemorySessionService.create_session` of
the external ADK runtime (spec 4.1 `OpenSession`). -/
def create_session (svc : SessionService) (k : SessionKey) (st : JDict) :
    LiveSession × SessionService :=
  let s : LiveSession := { key := k, state := st }
  (s, (k, s) :: svc)

/-- Modelled from the spec: `InMemorySessionService.append_event` of the
external ADK runtime — the apply-delta path of spec 4.1 step 4: the
event state delta is merged into the stored session state. -/
def append_event (svc : SessionService) (s : LiveSession) (e : LiveEvent) : SessionService :=
  svc.map fun kv =>
    if kv.1 = s.key then (kv.1, { kv.2 with state := stateMerge kv.2.state e.actions.state_delta })
    else kv

/-- Modelled from the spec: `InMemorySessionService.delete_session` of
the external ADK runtime, called in the cleanup phase of the bridge. -/
def delete_session (svc : SessionService) (k : SessionKey) : SessionService :=
  svc.filter fun kv => kv.1 ≠ k

/-- Value of one base64 alphabet character. -/
def b64CharVal (c : Char) : Option Nat :=
  if 65 ≤ c.toNat ∧ c.toNat ≤ 90 then some (c.toNat - 65)
  else if 97 ≤ c.toNat ∧ c.toNat ≤ 122 then some (c.toNat - 97 + 26)
  else if 48 ≤ c.toNat ∧ c.toNat ≤ 57 then some (c.toNat - 48 + 52)
  else if c = Char.ofNat 43 then some 62
  else if c = Char.ofNat 47 then some 63
  else none

/-- Decode a run of base64 sextet values into bytes; a trailing group of
one sextet is an error, groups of two or three yield one or two bytes. -/
def sextetsToBytes : List Nat → Option (List Nat)
  | [] => some []
  | [_] => none
  | [a, b] => some [a * 4 + b / 16]
  | [a, b, c] => some [a * 4 + b / 16, b % 16 * 16 + c / 4]
  | a :: b :: c :: d :: rest =>
      match sextetsToBytes rest with
      | some tail => some ([a * 4 + b / 16, b % 16 * 16 + c / 4, c % 4 * 64 + d] ++ tail)
      | none => none

/-- Python `base64.b64decode` in its default non-strict mode, as called
by the bridge (standard library, external to the repository): non-ASCII
input raises, characters outside the alphabet are discarded, the
remaining length must be a multiple of four, data after the first
padding character is dropped; `none` models a raised exception. -/
def b64decode (s : String) : Option (List Nat) :=
  if s.data.all (fun c => c.toNat < 128) then
    let valid := s.data.filter fun c => (b64CharVal c).isSome ∨ c = Char.ofNat 61
    if valid.length % 4 = 0 then
      sextetsToBytes ((valid.takeWhile fun c => c ≠ Char.ofNat 61).filterMap b64CharVal)
    else none
  else none

/-- Inbound client message after the `data.get("type")` dispatch of the
`client_to_adk` loop; the `data`/`value` payloads carry the defaults the
source supplies via `.get`. -/
inductive ClientMsg where
  | audio (data : String)
  | text (data : String)
  | endOfTurn
  | toggleMock (value : Bool)
  | unknown (tag : String)
deriving DecidableEq, Repr

/-- Command pushed into the upstream `LiveRequestQueue`. -/
inductive QueueCmd where
  | realtime (mime : String) (bytes : List Nat)
  | content (role : String) (text : String)
deriving DecidableEq, Repr

/-- Observable result of processing one client message in the
`client_to_adk` loop: commands forwarded upstream, warnings logged, the
session store and refreshed session handle afterwards, and whether an
exception escaped to the loop-level handler. -/
structure StepResult where
  forwards : List QueueCmd := []
  warnings : List String := []
  svc : SessionService
  session : Option LiveSession
  crash : Option String := none
deriving DecidableEq, Repr

/-- Shallow embedding of one iteration of the `client_to_adk` relay loop
(`app/live_server.py` lines 238-282): dispatch on the message type. The
`invId` parameter stands for the fresh uuid suffix of the synthetic
`toggle_mock` event; `k` is the key under which the endpoint loaded the
session handle. -/
def clientToAdkStep (svc : SessionService) (k : SessionKey) (session : LiveSession)
    (invId : String) (msg : ClientMsg) : StepResult :=
  match msg with
  | ClientMsg.audio d =>
      if d = "" then { svc := svc, session := some session }
      else
        match b64decode d with
        | none =>
            { svc := svc, session := some session, crash := some "binascii.Error" }
        | some [] =>
            { warnings := ["Received empty audio data from client."],
              svc := svc, session := some session }
        | some bs =>
            { forwards := [QueueCmd.realtime "audio/pcm" bs],
              svc := svc, session := some session }
  | ClientMsg.text d =>
      if d = "" then { svc := svc, session := some session }
      else
        { forwards := [QueueCmd.content "user" d], svc := svc, session := some session }
  | ClientMsg.endOfTurn => { svc := svc, session := some session }
  | ClientMsg.toggleMock v =>
      let ev : LiveEvent :=
        { author := "ui_control",
          invocation_id := "ui_mock_toggle_" ++ invId,
          actions := { state_delta := [("mock_a2a_calls", JVal.bool v)] } }
      let svc2 := append_event svc session ev
      { svc := svc2, session := get_session svc2 k }
  | ClientMsg.unknown tag =>
      { warnings := ["Received unknown message type from client: " ++ tag],
        svc := svc, session := some session }

/-- The two relay tasks of the bridge. -/
inductive BridgeTask where
  | adkToClient
  | clientToAdk
deriving DecidableEq, Repr

/-- The other relay task. -/
def BridgeTask.sibling : BridgeTask → BridgeTask
  | BridgeTask.adkToClient => BridgeTask.clientToAdk
  | BridgeTask.clientToAdk => BridgeTask.adkToClient

/-- How a relay loop came to finish. Each relay loop catches
`WebSocketDisconnect`, `CancelledError` and `Exception` at its own
boundary (`app/live_server.py` lines 223-230 and 284-293), so every one
of these ends the loop task normally. -/
inductive LoopExit where
  | streamEnded
  | disconnect
  | cancelled
  | errored (msg : String)
deriving DecidableEq, Repr

/-- How the endpoint leaves its `try` block (`app/live_server.py` lines
300-322): `asyncio.wait` returned with one loop finished first, both
loops finished together, or a disconnect, cancellation or exception
escaped the awaited setup/wait itself. -/
inductive BridgeOutcome where
  | firstDone (first : BridgeTask) (how : LoopExit)
  | bothDone (howAdk : LoopExit) (howClient : LoopExit)
  | outerDisconnect
  | outerCancelled
  | outerError (msg : String)
deriving DecidableEq, Repr

/-- Ordered actions of the bridge after its `try` block. -/
inductive BridgeAction where
  | cancelPending (t : BridgeTask)
  | awaitPending (t : BridgeTask)
  | closeQueue
  | cancelIfRunning (t : BridgeTask)
  | deleteSession
deriving DecidableEq, Repr

/-- The guaranteed-run `finally` block of the endpoint
(`app/live_server.py` lines 323-342): close the outbound command queue,
re-cancel any still-running bridge task, delete the session. -/
def finallyCleanup : List BridgeAction :=
  [BridgeAction.closeQueue,
   BridgeAction.cancelIfRunning BridgeTask.adkToClient,
   BridgeAction.cancelIfRunning BridgeTask.clientToAdk,
   BridgeAction.deleteSession]

/-- Shallow embedding of the shutdown control flow of
`websocket_endpoint` (`app/live_server.py` lines 296-342), as the
ordered list of actions the coroutine performs after `asyncio.wait`
returns or its `try` block is exited: when one loop finished first, the
pending sibling is cancelled and awaited (lines 307-311) before the
`finally` cleanup; in every case the `finally` cleanup runs. -/
def websocketShutdownTrace : BridgeOutcome → List BridgeAction
  | BridgeOutcome.firstDone first _ =>
      [BridgeAction.cancelPending first.sibling, BridgeAction.awaitPending first.sibling] ++
        finallyCleanup
  | BridgeOutcome.bothDone _ _ => finallyCleanup
  | BridgeOutcome.outerDisconnect => finallyCleanup
  | BridgeOutcome.outerCancelled => finallyCleanup
  | BridgeOutcome.outerError _ => finallyCleanup

/-- The `FAILED` task the stock manager finalizes on missing input. -/
def stockMissingInputTask (p : TaskSendParams) : Task :=
  let errArt : Artifact :=
    { name := "error_details",
      parts := [Part.data [("error", JVal.str "Error: Ticker symbol not provided in the request.")]] }
  { id := p.id, sessionId := p.sessionId,
    status := { state := TaskState.failed, message := none },
    artifacts := some [errArt] }

/-- The `FAILED` task the blockchain manager finalizes on missing input. -/
def blockchainMissingInputTask (p : TaskSendParams) : Task :=
  let errArt : Artifact :=
    { name := "error_details",
      parts := [Part.data [("error", JVal.str "No query provided.")]] }
  { id := p.id, sessionId := p.sessionId,
    status := { state := TaskState.failed, message := none },
    artifacts := some [errArt] }

/-- The `FAILED` task the stock manager stores when an exception escapes
the worker/processing try block (lines 98-105). -/
def stockInternalErrorTask (p : TaskSendParams) : Task :=
  let errArt : Artifact :=
    { name := "error_details",
      parts := [Part.data [("error", JVal.str "Internal server error processing task.")]] }
  { id := p.id, sessionId := p.sessionId,
    status := { state := TaskState.failed, message := none },
    artifacts := some [errArt] }

/-- COMPLETED task whose only artifact carries the round-trip data part
price 100 / symbol ABC, but under a name other than `stock_price_data`. -/
def mismatchedCompletedTask : Task :=
  let art : Artifact :=
    { name := "other_data",
      parts := [Part.data [("price", JVal.int 100), ("symbol", JVal.str "ABC")]] }
  { id := "t", sessionId := "s",
    status := { state := TaskState.completed, message := none },
    artifacts := some [art] }

/-- Canonical COMPLETED response shape produced by the stock specialist:
one artifact named `stock_price_data` holding one data part
(`task_manager.py` lines 80-84). -/
def specialistCompletedTask (tid sid : String) (d : JDict) : Task :=
  let art : Artifact := { name := "stock_price_data", parts := [Part.data d] }
  { id := tid, sessionId := sid,
    status := { state := TaskState.completed, message := none },
    artifacts := some [art] }

/-- User message with the given parts (request fixtures). -/
def msgOf (parts : List Part) : Message :=
  { role := "user", parts := parts }

/-- Task send parameters with the given ids and parts. -/
def paramsOf (tid sid : String) (parts : List Part) : TaskSendParams :=
  { id := tid, sessionId := sid, message := msgOf parts }

/-- Task request with the given ids and parts. -/
def requestOf (rid tid sid : String) (parts : List Part) : SendTaskRequest :=
  { id := rid, params := paramsOf tid sid parts }

/-! Helper lemmas shared by the claim proofs. -/

/-- Associativity of string append, via the underlying char lists. -/
theorem strAppendAssoc (a b c : String) : a ++ b ++ c = a ++ (b ++ c) := by
  cases a with
  | mk la =>
    cases b with
    | mk lb =>
      cases c with
      | mk lc =>
        show String.mk (la ++ lb ++ lc) = String.mk (la ++ (lb ++ lc))
        rw [List.append_assoc]

/-- When every text part of a message is empty, the extraction loop of
the task managers finds no symbol. -/
theorem firstNonEmptyText_eq_none (parts : List Part)
    (h : ∀ t, Part.text t ∈ parts → t = "") : firstNonEmptyText parts = none := by
  induction parts with
  | nil => rfl
  | cons p rest ih =>
      cases p with
      | text t =>
          have ht : t = "" := h t (List.mem_cons_self _ _)
          simp only [firstNonEmptyText, ht, if_pos rfl]
          exact ih fun t' h' => h t' (List.mem_cons_of_mem _ h')
      | data d =>
          simp only [firstNonEmptyText]
          exact ih fun t' h' => h t' (List.mem_cons_of_mem _ h')

/-- When every text part of a message is empty, `extractUserText` is
`none`. -/
theorem extractUserText_eq_none (parts : List Part)
    (h : ∀ t, Part.text t ∈ parts → t = "") : extractUserText parts = none := by
  simp [extractUserText, firstNonEmptyText_eq_none parts h]

/-- Evaluation of the stock handler on a fresh task id with no
extractable symbol. -/
theorem stockMissingInputRun (store : TaskStore) (request : SendTaskRequest)
    (mcp : McpOutcome)
    (hfresh : store.lookup request.params.id = none)
    (hex : extractUserText request.params.message.parts = none) :
    (StockInfoTaskManager.on_send_task store request mcp).response.result =
        some (stockMissingInputTask request.params) ∧
    (StockInfoTaskManager.on_send_task store request mcp).response.error = none ∧
    (StockInfoTaskManager.on_send_task store request mcp).store.lookup request.params.id =
        some (stockMissingInputTask request.params) ∧
    (StockInfoTaskManager.on_send_task store request mcp).writes =
        [TaskState.submitted, TaskState.working, TaskState.failed] := by
  simp [StockInfoTaskManager.on_send_task, upsert_task, update_store, hfresh, hex,
    stockMissingInputTask, List.lookup]

/-- Evaluation of the blockchain handler on a fresh task id with no
extractable query. -/
theorem blockchainMissingInputRun (store : TaskStore) (request : SendTaskRequest)
    (adk : AdkOutcome)
    (hfresh : store.lookup request.params.id = none)
    (hex : extractUserText request.params.message.parts = none) :
    (BlockchainInfoTaskManager.on_send_task store request adk).response.result =
        some (blockchainMissingInputTask request.params) ∧
    (BlockchainInfoTaskManager.on_send_task store request adk).response.error = none ∧
    (BlockchainInfoTaskManager.on_send_task store request adk).store.lookup request.params.id =
        some (blockchainMissingInputTask request.params) ∧
    (BlockchainInfoTaskManager.on_send_task store request adk).writes =
        [TaskState.submitted, TaskState.working, TaskState.failed] := by
  simp [BlockchainInfoTaskManager.on_send_task, upsert_task, update_store, hfresh, hex,
    blockchainMissingInputTask, List.lookup]

/-- Association-list lookup at a matching head. -/
theorem lookup_cons_hit {α β : Type} [DecidableEq α] (a : α) (b : β) (l : List (α × β)) :
    List.lookup a ((a, b) :: l) = some b := by
  have hb : (a == a) = true := by simp
  simp [List.lookup, hb]

/-- Association-list lookup skipping a non-matching head. -/
theorem lookup_cons_miss {α β : Type} [DecidableEq α] {k a : α} (h : ¬k = a) (b : β)
    (l : List (α × β)) : List.lookup a ((k, b) :: l) = List.lookup a l := by
  have hb : (a == k) = false := by simp [Ne.symm h]
  simp [List.lookup, hb]

/-- Looking up the key just set in a state map yields the new value. -/
theorem lookup_dictSet (d : JDict) (key : String) (v : JVal) :
    (dictSet d key v).lookup key = some v := by
  induction d with
  | nil => simp [dictSet, lookup_cons_hit]
  | cons kv rest ih =>
      obtain ⟨k0, v0⟩ := kv
      by_cases h0 : k0 = key
      · subst h0
        simp [dictSet, lookup_cons_hit]
      · simp [dictSet, h0, lookup_cons_miss h0, ih]

/-- Looking a session up after an event was appended to it: the stored
state is the previous state merged with the event delta. -/
theorem lookup_append_event (svc : SessionService) (s : LiveSession) (e : LiveEvent)
    (k : SessionKey) (hk : s.key = k) :
    svc.lookup k = some s →
    (append_event svc s e).lookup k =
      some { key := s.key, state := stateMerge s.state e.actions.state_delta } := by
  induction svc with
  | nil => intro hs; simp [List.lookup] at hs
  | cons kv rest ih =>
      intro hs
      obtain ⟨k0, s0⟩ := kv
      by_cases h0 : k0 = k
      · subst h0
        have hs0 : s0 = s := by
          rw [lookup_cons_hit] at hs
          exact Option.some.inj hs
        subst hs0
        have hunfold : append_event ((k0, s0) :: rest) s0 e =
            (if k0 = s0.key then
              (k0, { key := s0.key, state := stateMerge s0.state e.actions.state_delta })
            else (k0, s0)) :: append_event rest s0 e := rfl
        rw [hunfold, hk]
        simp [lookup_cons_hit]
      · have hs' : rest.lookup k = some s := by
          rw [lookup_cons_miss h0] at hs
          exact hs
        have h2 : ¬k0 = s.key := by rw [hk]; exact h0
        have hunfold : append_event ((k0, s0) :: rest) s e =
            (if k0 = s.key then
              (k0, { key := s0.key, state := stateMerge s0.state e.actions.state_delta })
            else (k0, s0)) :: append_event rest s e := rfl
        rw [hunfold, if_neg h2, lookup_cons_miss h0]
        exact ih hs'

/-- Splitting of the not-found message around its literal core. -/
theorem notFoundSplit (s : String) :
    s ++ " not found or not discovered." =
      (s ++ " ") ++ "not found" ++ " or not discovered." := by
  rw [strAppendAssoc, strAppendAssoc]
  exact congrArg (fun t => s ++ t) (by decide)

/-! Claim theorems. -/

/-- C1: for every task handled on a fresh task id by either Specialist
Task Handler, the sequence of statuses written to the Task Lifecycle
Store is exactly SUBMITTED, then WORKING, then exactly one of COMPLETED
or FAILED; the terminal status is the last write of the handler, so no
status is written for that task id after a terminal one. -/
theorem c1_status_lifecycle (store : TaskStore) (request : SendTaskRequest)
    (mcp : McpOutcome) (adk : AdkOutcome)
    (hfresh : store.lookup request.params.id = none) :
    (∃ t, (StockInfoTaskManager.on_send_task store request mcp).writes =
        [TaskState.submitted, TaskState.working, t] ∧
      (t = TaskState.completed ∨ t = TaskState.failed)) ∧
    (∃ t, (BlockchainInfoTaskManager.on_send_task store request adk).writes =
        [TaskState.submitted, TaskState.working, t] ∧
      (t = TaskState.completed ∨ t = TaskState.failed)) := by
  constructor
  · rcases hx : extractUserText request.params.message.parts with _ | s
    · exact ⟨TaskState.failed,
        by simp [StockInfoTaskManager.on_send_task, upsert_task, hfresh, hx], Or.inr rfl⟩
    · cases mcp with
      | ok d =>
          by_cases hc : ((d.lookup "error").isNone && (d.lookup "price").isSome) = true
          · exact ⟨TaskState.completed,
              by simp [StockInfoTaskManager.on_send_task, upsert_task, hfresh, hx, hc], Or.inl rfl⟩
          · exact ⟨TaskState.failed,
              by simp [StockInfoTaskManager.on_send_task, upsert_task, hfresh, hx, hc], Or.inr rfl⟩
      | raise m =>
          exact ⟨TaskState.failed,
            by simp [StockInfoTaskManager.on_send_task, upsert_task, hfresh, hx], Or.inr rfl⟩
  · rcases hx : extractUserText request.params.message.parts with _ | s
    · exact ⟨TaskState.failed,
        by simp [BlockchainInfoTaskManager.on_send_task, upsert_task, hfresh, hx], Or.inr rfl⟩
    · by_cases hc : ((adkResultDict adk).lookup "error").isNone = true
      · exact ⟨TaskState.completed,
          by simp [BlockchainInfoTaskManager.on_send_task, upsert_task, hfresh, hx, hc], Or.inl rfl⟩
      · exact ⟨TaskState.failed,
          by simp [BlockchainInfoTaskManager.on_send_task, upsert_task, hfresh, hx, hc], Or.inr rfl⟩

/-- C1 witness: both handlers on a concrete fresh request. -/
theorem c1_status_lifecycle_witness :
    (List.lookup "t1" ([] : TaskStore) = none) ∧
    ((∃ t, (StockInfoTaskManager.on_send_task []
        (requestOf "r1" "t1" "s1" [Part.text "BTC"])
        (McpOutcome.ok [("price", JVal.int 100)])).writes =
        [TaskState.submitted, TaskState.working, t] ∧
      (t = TaskState.completed ∨ t = TaskState.failed)) ∧
    (∃ t, (BlockchainInfoTaskManager.on_send_task []
        (requestOf "r1" "t1" "s1" [Part.text "BTC"])
        (AdkOutcome.toolResult [("hashrate", JVal.int 7)])).writes =
        [TaskState.submitted, TaskState.working, t] ∧
      (t = TaskState.completed ∨ t = TaskState.failed))) :=
  ⟨rfl, c1_status_lifecycle [] (requestOf "r1" "t1" "s1" [Part.text "BTC"])
    (McpOutcome.ok [("price", JVal.int 100)])
    (AdkOutcome.toolResult [("hashrate", JVal.int 7)]) rfl⟩

/-- C6: a task request whose message has an empty part list, or no text
part with non-empty text, is finalized by both Specialist Task Handlers
as FAILED with an artifact named error_details whose data part carries a
missing-input error message, and the full task is returned in the
response result (and stored). -/
theorem c6_missing_input_failed (store : TaskStore) (request : SendTaskRequest)
    (mcp : McpOutcome) (adk : AdkOutcome)
    (hfresh : store.lookup request.params.id = none)
    (hempty : ∀ t, Part.text t ∈ request.params.message.parts → t = "") :
    ((StockInfoTaskManager.on_send_task store request mcp).response.result =
        some (stockMissingInputTask request.params) ∧
      (StockInfoTaskManager.on_send_task store request mcp).response.error = none ∧
      (StockInfoTaskManager.on_send_task store request mcp).store.lookup request.params.id =
        some (stockMissingInputTask request.params) ∧
      (stockMissingInputTask request.params).status.state = TaskState.failed ∧
      (stockMissingInputTask request.params).artifacts.getD [] =
        [{ name := "error_details",
           parts := [Part.data [("error",
             JVal.str "Error: Ticker symbol not provided in the request.")]] }]) ∧
    ((BlockchainInfoTaskManager.on_send_task store request adk).response.result =
        some (blockchainMissingInputTask request.params) ∧
      (BlockchainInfoTaskManager.on_send_task store request adk).response.error = none ∧
      (BlockchainInfoTaskManager.on_send_task store request adk).store.lookup request.params.id =
        some (blockchainMissingInputTask request.params) ∧
      (blockchainMissingInputTask request.params).status.state = TaskState.failed ∧
      (blockchainMissingInputTask request.params).artifacts.getD [] =
        [{ name := "error_details",
           parts := [Part.data [("error", JVal.str "No query provided.")]] }]) := by
  have hex := extractUserText_eq_none request.params.message.parts hempty
  have hs := stockMissingInputRun store request mcp hfresh hex
  have hb := blockchainMissingInputRun store request adk hfresh hex
  exact ⟨⟨hs.1, hs.2.1, hs.2.2.1, rfl, rfl⟩, ⟨hb.1, hb.2.1, hb.2.2.1, rfl, rfl⟩⟩

/-- C6 witness: both handlers on a concrete request with an empty part
list. -/
theorem c6_missing_input_failed_witness :
    (List.lookup "t2" ([] : TaskStore) = none) ∧
    (∀ t, Part.text t ∈ ([] : List Part) → t = "") ∧
    ((StockInfoTaskManager.on_send_task [] (requestOf "r2" "t2" "s2" [])
        (McpOutcome.ok [])).response.result =
      some (stockMissingInputTask (paramsOf "t2" "s2" [])) ∧
      (StockInfoTaskManager.on_send_task [] (requestOf "r2" "t2" "s2" [])
        (McpOutcome.ok [])).response.error = none ∧
      (StockInfoTaskManager.on_send_task [] (requestOf "r2" "t2" "s2" [])
        (McpOutcome.ok [])).store.lookup "t2" =
      some (stockMissingInputTask (paramsOf "t2" "s2" [])) ∧
      (stockMissingInputTask (paramsOf "t2" "s2" [])).status.state = TaskState.failed ∧
      (stockMissingInputTask (paramsOf "t2" "s2" [])).artifacts.getD [] =
        [{ name := "error_details",
           parts := [Part.data [("error",
             JVal.str "Error: Ticker symbol not provided in the request.")]] }]) :=
  ⟨rfl, fun t h => absurd h (List.not_mem_nil (Part.text t)),
    (c6_missing_input_failed [] (requestOf "r2" "t2" "s2" [])
      (McpOutcome.ok []) (AdkOutcome.toolResult []) rfl
      (fun t h => absurd h (List.not_mem_nil (Part.text t)))).1⟩

/-- C7: when an exception escapes the try block of the stock handler
(modelled by the worker call raising), the handler returns a
protocol-level JSON-RPC error with no task result, and the returned
store holds the task as FAILED with an error artifact; the FAILED write
is in the write trace, made before the response is returned. -/
theorem c7_internal_exception_protocol_error (store : TaskStore)
    (request : SendTaskRequest) (emsg : String) (sym : String)
    (hfresh : store.lookup request.params.id = none)
    (hsym : extractUserText request.params.message.parts = some sym) :
    (StockInfoTaskManager.on_send_task store request (McpOutcome.raise emsg)).response.result =
      none ∧
    (StockInfoTaskManager.on_send_task store request (McpOutcome.raise emsg)).response.error =
      some { code := -32603,
             message := "Internal processing error for task " ++ request.params.id } ∧
    (StockInfoTaskManager.on_send_task store request (McpOutcome.raise emsg)).store.lookup
        request.params.id = some (stockInternalErrorTask request.params) ∧
    (stockInternalErrorTask request.params).status.state = TaskState.failed ∧
    (StockInfoTaskManager.on_send_task store request (McpOutcome.raise emsg)).writes =
      [TaskState.submitted, TaskState.working, TaskState.failed] := by
  refine ⟨?_, ?_, ?_, rfl, ?_⟩ <;>
    simp [StockInfoTaskManager.on_send_task, upsert_task, update_store, hfresh, hsym,
      stockInternalErrorTask, List.lookup]

/-- C7 witness: the stock handler on a concrete request whose worker
call raises. -/
theorem c7_internal_exception_protocol_error_witness :
    (List.lookup "t3" ([] : TaskStore) = none) ∧
    extractUserText [Part.text "BTC"] = some "BTC" ∧
    ((StockInfoTaskManager.on_send_task [] (requestOf "r3" "t3" "s3" [Part.text "BTC"])
        (McpOutcome.raise "boom")).response.result = none ∧
      (StockInfoTaskManager.on_send_task [] (requestOf "r3" "t3" "s3" [Part.text "BTC"])
        (McpOutcome.raise "boom")).response.error =
        some { code := -32603, message := "Internal processing error for task " ++ "t3" } ∧
      (StockInfoTaskManager.on_send_task [] (requestOf "r3" "t3" "s3" [Part.text "BTC"])
        (McpOutcome.raise "boom")).store.lookup "t3" =
        some (stockInternalErrorTask (paramsOf "t3" "s3" [Part.text "BTC"])) ∧
      (stockInternalErrorTask (paramsOf "t3" "s3" [Part.text "BTC"])).status.state =
        TaskState.failed ∧
      (StockInfoTaskManager.on_send_task [] (requestOf "r3" "t3" "s3" [Part.text "BTC"])
        (McpOutcome.raise "boom")).writes =
        [TaskState.submitted, TaskState.working, TaskState.failed]) :=
  ⟨rfl, by decide,
    c7_internal_exception_protocol_error [] (requestOf "r3" "t3" "s3" [Part.text "BTC"])
      "boom" "BTC" rfl (by decide)⟩

/-- C2: when either relay loop finishes first, the bridge cancels the
sibling loop and awaits its cancellation before the cleanup phase; the
cleanup phase (close the outbound queue, re-cancel, delete the session)
is a suffix of the shutdown trace for every termination mode — whichever
loop ended it and whether it ended by disconnect, cancellation or
exception — with the queue close preceding the session deletion and the
deletion last. -/
theorem c2_bridge_shutdown_order :
    (∀ first how, websocketShutdownTrace (BridgeOutcome.firstDone first how) =
      [BridgeAction.cancelPending first.sibling, BridgeAction.awaitPending first.sibling] ++
        finallyCleanup) ∧
    (∀ o, finallyCleanup <:+ websocketShutdownTrace o) ∧
    (∀ o, (websocketShutdownTrace o).getLast? = some BridgeAction.deleteSession) ∧
    (∀ o, BridgeAction.closeQueue ∈ websocketShutdownTrace o ∧
      BridgeAction.deleteSession ∈ websocketShutdownTrace o) := by
  refine ⟨fun first how => rfl, fun o => ?_, fun o => ?_, fun o => ?_⟩
  · cases o with
    | firstDone f how =>
        exact ⟨[BridgeAction.cancelPending f.sibling, BridgeAction.awaitPending f.sibling], rfl⟩
    | bothDone ha hc => exact ⟨[], rfl⟩
    | outerDisconnect => exact ⟨[], rfl⟩
    | outerCancelled => exact ⟨[], rfl⟩
    | outerError m => exact ⟨[], rfl⟩
  · cases o <;> simp [websocketShutdownTrace, finallyCleanup]
  · cases o <;> simp [websocketShutdownTrace, finallyCleanup]

/-- C3 counterexample: a COMPLETED response whose only artifact carries
exactly the data part price 100 / symbol ABC, but under the name
`other_data`, satisfies the claim premise yet is mapped by
`call_specialist_stock_agent` to an error result with no data, because
that client only accepts artifacts named `stock_price_data`. -/
theorem c3_roundtrip_counterexample :
    (mismatchedCompletedTask.status.state = TaskState.completed ∧
      findAnyData (mismatchedCompletedTask.artifacts.getD []) =
        some [("price", JVal.int 100), ("symbol", JVal.str "ABC")]) ∧
    call_specialist_stock_agent (A2AExchange.ok { result := some mismatchedCompletedTask }) =
      { status := "error",
        message := some "Received unexpected completion format from specialist agent.",
        data := none, specialist_name := none } := by
  decide

/-- C3 (amended): a delegation call whose A2A response carries a
COMPLETED task with the artifact shape the specialist actually produces
— a single artifact named `stock_price_data` whose only part is the data
part — is mapped by both Delegation Clients to a success result carrying
exactly that data. -/
theorem c3_completed_data_success (tid sid : String) (d : JDict)
    (registry : Registry) (name : String) (card : AgentCard)
    (hreg : registry.lookup name = some card)
    (parse : PayloadParse) (raw : String) :
    call_specialist_stock_agent
        (A2AExchange.ok { result := some (specialistCompletedTask tid sid d) }) =
      { status := "success", message := none, data := some d, specialist_name := none } ∧
    (delegate_task_to_specialist registry name parse raw
        (A2AExchange.ok { result := some (specialistCompletedTask tid sid d) })).result =
      { status := "success", message := none, data := some d, specialist_name := some name } := by
  constructor
  · simp [call_specialist_stock_agent, processStockResponse, specialistCompletedTask,
      artifactsTruthy, findStockData, firstDataPart]
  · simp [delegate_task_to_specialist, hreg, processDelegateResponse, specialistCompletedTask,
      artifactsTruthy, findAnyData, firstDataPart]

/-- C3 witness: both clients on the concrete round-trip data. -/
theorem c3_completed_data_success_witness :
    (List.lookup "StockAgent" [("StockAgent", AgentCard.mk "StockAgent" "http://x")] =
      some (AgentCard.mk "StockAgent" "http://x")) ∧
    (call_specialist_stock_agent
        (A2AExchange.ok { result := some (specialistCompletedTask "t" "s"
          [("price", JVal.int 100), ("symbol", JVal.str "ABC")]) }) =
      { status := "success", message := none,
        data := some [("price", JVal.int 100), ("symbol", JVal.str "ABC")],
        specialist_name := none } ∧
    (delegate_task_to_specialist [("StockAgent", AgentCard.mk "StockAgent" "http://x")]
        "StockAgent" PayloadParse.nonDict "ABC"
        (A2AExchange.ok { result := some (specialistCompletedTask "t" "s"
          [("price", JVal.int 100), ("symbol", JVal.str "ABC")]) })).result =
      { status := "success", message := none,
        data := some [("price", JVal.int 100), ("symbol", JVal.str "ABC")],
        specialist_name := some "StockAgent" }) :=
  ⟨by decide,
    c3_completed_data_success "t" "s" [("price", JVal.int 100), ("symbol", JVal.str "ABC")]
      [("StockAgent", AgentCard.mk "StockAgent" "http://x")] "StockAgent"
      (AgentCard.mk "StockAgent" "http://x") (by decide) PayloadParse.nonDict "ABC"⟩

/-- C4: every exceptional outcome of the A2A exchange — HTTP error, JSON
error, refused connection, or any other raised exception — is converted
by both Delegation Clients into a result dictionary with status error
and a message; the embedded except-chains are total over the exception
constructors, so no exception propagates to the caller. -/
theorem c4_transport_failure_uniform_error (x : A2AExchange)
    (registry : Registry) (name : String) (card : AgentCard)
    (hx : x.isTransportFailure = true)
    (hreg : registry.lookup name = some card)
    (parse : PayloadParse) (raw : String) :
    ((call_specialist_stock_agent x).status = "error" ∧
      (call_specialist_stock_agent x).message.isSome = true) ∧
    ((delegate_task_to_specialist registry name parse raw x).result.status = "error" ∧
      (delegate_task_to_specialist registry name parse raw x).result.message.isSome = true) := by
  cases x <;>
    simp_all [call_specialist_stock_agent, delegate_task_to_specialist,
      A2AExchange.isTransportFailure, hreg]

/-- C4 witness: both clients on a concrete malformed-JSON failure. -/
theorem c4_transport_failure_uniform_error_witness :
    (A2AExchange.jsonError "bad json").isTransportFailure = true ∧
    (List.lookup "StockAgent" [("StockAgent", AgentCard.mk "StockAgent" "http://x")] =
      some (AgentCard.mk "StockAgent" "http://x")) ∧
    (((call_specialist_stock_agent (A2AExchange.jsonError "bad json")).status = "error" ∧
      (call_specialist_stock_agent (A2AExchange.jsonError "bad json")).message.isSome = true) ∧
    ((delegate_task_to_specialist [("StockAgent", AgentCard.mk "StockAgent" "http://x")]
        "StockAgent" PayloadParse.nonDict "ABC"
        (A2AExchange.jsonError "bad json")).result.status = "error" ∧
      (delegate_task_to_specialist [("StockAgent", AgentCard.mk "StockAgent" "http://x")]
        "StockAgent" PayloadParse.nonDict "ABC"
        (A2AExchange.jsonError "bad json")).result.message.isSome = true)) :=
  ⟨rfl, by decide,
    c4_transport_failure_uniform_error (A2AExchange.jsonError "bad json")
      [("StockAgent", AgentCard.mk "StockAgent" "http://x")] "StockAgent"
      (AgentCard.mk "StockAgent" "http://x") rfl (by decide) PayloadParse.nonDict "ABC"⟩

/-- C5: a delegation call naming a specialist absent from the discovered
registry returns a status-error result whose message contains the words
not found, and the A2A network exchange is never reached; with an empty
registry this holds for every name, so every delegation fails at name
resolution. -/
theorem c5_unknown_specialist_no_network (registry : Registry) (name : String)
    (parse : PayloadParse) (raw : String) (x : A2AExchange)
    (hname : registry.lookup name = none) :
    (delegate_task_to_specialist registry name parse raw x).networkCalled = false ∧
    (delegate_task_to_specialist registry name parse raw x).result.status = "error" ∧
    ∃ a b, (delegate_task_to_specialist registry name parse raw x).result.message =
      some (a ++ "not found" ++ b) := by
  refine ⟨?_, ?_,
    ⟨"Specialist agent " ++ quoted name ++ " ", " or not discovered.", ?_⟩⟩
  · simp [delegate_task_to_specialist, hname]
  · simp [delegate_task_to_specialist, hname]
  · simp only [delegate_task_to_specialist, hname]
    rw [← notFoundSplit]

/-- C5 witness: a delegation against the empty registry. -/
theorem c5_unknown_specialist_no_network_witness :
    (List.lookup "StockAgent" ([] : Registry) = none) ∧
    ((delegate_task_to_specialist [] "StockAgent" PayloadParse.nonDict "ABC"
        (A2AExchange.ok {})).networkCalled = false ∧
    (delegate_task_to_specialist [] "StockAgent" PayloadParse.nonDict "ABC"
        (A2AExchange.ok {})).result.status = "error" ∧
    ∃ a b, (delegate_task_to_specialist [] "StockAgent" PayloadParse.nonDict "ABC"
        (A2AExchange.ok {})).result.message = some (a ++ "not found" ++ b)) :=
  ⟨rfl, c5_unknown_specialist_no_network [] "StockAgent" PayloadParse.nonDict "ABC"
    (A2AExchange.ok {}) rfl⟩

/-- C8: processing a toggle_mock client message applies a synthetic
ui_control-authored state delta directly to the session store and
refreshes the session handle: the refreshed handle immediately shows
mock_a2a_calls at the toggled value, nothing is forwarded upstream, no
warning is logged and no exception escapes; the embedding of this step
consumes no event from the upstream event source. -/
theorem c8_toggle_mock_state (svc : SessionService) (k : SessionKey)
    (session : LiveSession) (invId : String) (v : Bool)
    (hk : session.key = k) (hs : svc.lookup k = some session) :
    (clientToAdkStep svc k session invId (ClientMsg.toggleMock v)).forwards = [] ∧
    (clientToAdkStep svc k session invId (ClientMsg.toggleMock v)).warnings = [] ∧
    (clientToAdkStep svc k session invId (ClientMsg.toggleMock v)).crash = none ∧
    (clientToAdkStep svc k session invId (ClientMsg.toggleMock v)).session =
      some { key := session.key,
             state := dictSet session.state "mock_a2a_calls" (JVal.bool v) } ∧
    ((clientToAdkStep svc k session invId (ClientMsg.toggleMock v)).session.bind
        fun s => s.state.lookup "mock_a2a_calls") = some (JVal.bool v) := by
  have hev := lookup_append_event svc session
    { author := "ui_control", invocation_id := "ui_mock_toggle_" ++ invId,
      actions := { state_delta := [("mock_a2a_calls", JVal.bool v)] } } k hk hs
  refine ⟨rfl, rfl, rfl, ?_, ?_⟩
  · simpa [clientToAdkStep, get_session, stateMerge] using hev
  · simp [clientToAdkStep, get_session]
    rw [hev]
    simp [stateMerge, lookup_dictSet]

/-- C8 witness: a concrete session store with one live session. -/
theorem c8_toggle_mock_state_witness :
    ((LiveSession.mk (SessionKey.mk "app" "u" "s") []).key = SessionKey.mk "app" "u" "s") ∧
    (List.lookup (SessionKey.mk "app" "u" "s")
      [(SessionKey.mk "app" "u" "s", LiveSession.mk (SessionKey.mk "app" "u" "s") [])] =
      some (LiveSession.mk (SessionKey.mk "app" "u" "s") [])) ∧
    ((clientToAdkStep [(SessionKey.mk "app" "u" "s",
        LiveSession.mk (SessionKey.mk "app" "u" "s") [])]
        (SessionKey.mk "app" "u" "s") (LiveSession.mk (SessionKey.mk "app" "u" "s") [])
        "abc" (ClientMsg.toggleMock true)).session.bind
        fun s => s.state.lookup "mock_a2a_calls") = some (JVal.bool true) :=
  ⟨rfl, by decide,
    (c8_toggle_mock_state [(SessionKey.mk "app" "u" "s",
        LiveSession.mk (SessionKey.mk "app" "u" "s") [])]
      (SessionKey.mk "app" "u" "s") (LiveSession.mk (SessionKey.mk "app" "u" "s") [])
      "abc" true rfl (by decide)).2.2.2.2⟩

/-- C9 counterexample: the message with type audio and an empty data
string has an empty decoded payload, and the loop drops it without
forwarding and without crashing — but logs nothing, while the claim
states an empty payload is logged. -/
theorem c9_empty_audio_counterexample :
    b64decode "" = some [] ∧
    (clientToAdkStep [] (SessionKey.mk "a" "u" "s")
        (LiveSession.mk (SessionKey.mk "a" "u" "s") []) "i" (ClientMsg.audio "")).forwards = [] ∧
    (clientToAdkStep [] (SessionKey.mk "a" "u" "s")
        (LiveSession.mk (SessionKey.mk "a" "u" "s") []) "i" (ClientMsg.audio "")).crash = none ∧
    (clientToAdkStep [] (SessionKey.mk "a" "u" "s")
        (LiveSession.mk (SessionKey.mk "a" "u" "s") []) "i" (ClientMsg.audio "")).warnings = [] := by
  decide

/-- C9 (amended): for an audio client message whose base64 decoding
succeeds, a non-empty decoded payload is forwarded upstream as a single
realtime blob with the fixed MIME type audio/pcm without crashing; an
empty payload is dropped without forwarding and without crashing, and a
warning is logged exactly when the data string itself was non-empty (an
empty data string is dropped silently before decoding). -/
theorem c9_audio_forwarding (svc : SessionService) (k : SessionKey)
    (session : LiveSession) (invId : String) (d : String) (bs : List Nat)
    (hd : b64decode d = some bs) :
    (bs ≠ [] → (clientToAdkStep svc k session invId (ClientMsg.audio d)).forwards =
        [QueueCmd.realtime "audio/pcm" bs] ∧
      (clientToAdkStep svc k session invId (ClientMsg.audio d)).crash = none) ∧
    (bs = [] → (clientToAdkStep svc k session invId (ClientMsg.audio d)).forwards = [] ∧
      (clientToAdkStep svc k session invId (ClientMsg.audio d)).crash = none ∧
      ((clientToAdkStep svc k session invId (ClientMsg.audio d)).warnings =
        if d = "" then [] else ["Received empty audio data from client."])) := by
  by_cases hde : d = ""
  · subst hde
    have hbs : bs = [] := by
      have h0 : b64decode "" = some [] := rfl
      rw [h0] at hd
      exact (Option.some.inj hd).symm
    subst hbs
    refine ⟨fun hne => absurd rfl hne, fun _ => ?_⟩
    simp [clientToAdkStep]
  · cases bs with
    | nil =>
        refine ⟨fun hne => absurd rfl hne, fun _ => ?_⟩
        simp [clientToAdkStep, hde, hd]
    | cons b rest =>
        refine ⟨fun _ => ?_, fun h => by simp at h⟩
        simp [clientToAdkStep, hde, hd]

/-- C9 witness: a concrete audio message decoding to one byte. -/
theorem c9_audio_forwarding_witness :
    b64decode "QQ==" = some [65] ∧
    (([65] : List Nat) ≠ [] →
      (clientToAdkStep [] (SessionKey.mk "a" "u" "s")
          (LiveSession.mk (SessionKey.mk "a" "u" "s") []) "i"
          (ClientMsg.audio "QQ==")).forwards = [QueueCmd.realtime "audio/pcm" [65]] ∧
        (clientToAdkStep [] (SessionKey.mk "a" "u" "s")
          (LiveSession.mk (SessionKey.mk "a" "u" "s") []) "i"
          (ClientMsg.audio "QQ==")).crash = none) :=
  ⟨by decide,
    (c9_audio_forwarding [] (SessionKey.mk "a" "u" "s")
      (LiveSession.mk (SessionKey.mk "a" "u" "s") []) "i" "QQ==" [65] (by decide)).1⟩

/-- C10: a delegation payload parsing as a JSON object is sent by the
example Delegation Client as a single DataPart and no text part; both
Specialist Task Handlers read the user query only from text parts, so on
a fresh task id such a request is finalized FAILED with the missing-input
error artifact, never COMPLETED. -/
theorem c10_json_object_payload_fails (d : JDict) (raw : String)
    (store : TaskStore) (request : SendTaskRequest)
    (mcp : McpOutcome) (adk : AdkOutcome)
    (hfresh : store.lookup request.params.id = none)
    (hparts : request.params.message.parts = buildA2AParts (PayloadParse.dict d) raw) :
    buildA2AParts (PayloadParse.dict d) raw = [Part.data d] ∧
    (∀ p ∈ buildA2AParts (PayloadParse.dict d) raw, ∀ t, p ≠ Part.text t) ∧
    ((StockInfoTaskManager.on_send_task store request mcp).response.result =
        some (stockMissingInputTask request.params) ∧
      (stockMissingInputTask request.params).status.state = TaskState.failed ∧
      (stockMissingInputTask request.params).status.state ≠ TaskState.completed) ∧
    ((BlockchainInfoTaskManager.on_send_task store request adk).response.result =
        some (blockchainMissingInputTask request.params) ∧
      (blockchainMissingInputTask request.params).status.state = TaskState.failed ∧
      (blockchainMissingInputTask request.params).status.state ≠ TaskState.completed) := by
  have hex : extractUserText request.params.message.parts = none := by
    rw [hparts]
    rfl
  have hst := stockMissingInputRun store request mcp hfresh hex
  have hbl := blockchainMissingInputRun store request adk hfresh hex
  refine ⟨rfl, ?_, ⟨hst.1, rfl, fun h => nomatch h⟩, ⟨hbl.1, rfl, fun h => nomatch h⟩⟩
  intro p hp t
  simp [buildA2AParts] at hp
  subst hp
  exact fun h => Part.noConfusion h

/-- C10 witness: a concrete JSON-object payload request. -/
theorem c10_json_object_payload_fails_witness :
    (List.lookup "t4" ([] : TaskStore) = none) ∧
    ((requestOf "r4" "t4" "s4" [Part.data [("symbol", JVal.str "ABC")]]).params.message.parts =
      buildA2AParts (PayloadParse.dict [("symbol", JVal.str "ABC")]) "x") ∧
    (buildA2AParts (PayloadParse.dict [("symbol", JVal.str "ABC")]) "x" =
        [Part.data [("symbol", JVal.str "ABC")]] ∧
      (∀ p ∈ buildA2AParts (PayloadParse.dict [("symbol", JVal.str "ABC")]) "x",
        ∀ t, p ≠ Part.text t) ∧
      ((StockInfoTaskManager.on_send_task []
          (requestOf "r4" "t4" "s4" [Part.data [("symbol", JVal.str "ABC")]])
          (McpOutcome.ok [("price", JVal.int 1)])).response.result =
        some (stockMissingInputTask
          (paramsOf "t4" "s4" [Part.data [("symbol", JVal.str "ABC")]])) ∧
        (stockMissingInputTask
          (paramsOf "t4" "s4" [Part.data [("symbol", JVal.str "ABC")]])).status.state =
          TaskState.failed ∧
        (stockMissingInputTask
          (paramsOf "t4" "s4" [Part.data [("symbol", JVal.str "ABC")]])).status.state ≠
          TaskState.completed) ∧
      ((BlockchainInfoTaskManager.on_send_task []
          (requestOf "r4" "t4" "s4" [Part.data [("symbol", JVal.str "ABC")]])
          (AdkOutcome.toolResult [("height", JVal.int 1)])).response.result =
        some (blockchainMissingInputTask
          (paramsOf "t4" "s4" [Part.data [("symbol", JVal.str "ABC")]])) ∧
        (blockchainMissingInputTask
          (paramsOf "t4" "s4" [Part.data [("symbol", JVal.str "ABC")]])).status.state =
          TaskState.failed ∧
        (blockchainMissingInputTask
          (paramsOf "t4" "s4" [Part.data [("symbol", JVal.str "ABC")]])).status.state ≠
          TaskState.completed)) :=
  ⟨rfl, rfl,
    c10_json_object_payload_fails [("symbol", JVal.str "ABC")] "x" []
      (requestOf "r4" "t4" "s4" [Part.data [("symbol", JVal.str "ABC")]])
      (McpOutcome.ok [("price", JVal.int 1)]) (AdkOutcome.toolResult [("height", JVal.int 1)])
      rfl rfl⟩

end BVA
